import Mathlib

/-!
Verification development for the behaviour-bot analysis pipeline
(`behaviour/features.py`, `behaviour/categories.py`, `behaviour/scoring.py`,
`behaviour/levels.py`, `behaviour/analyzer.py`, `behaviour/behaviour_settings.py`).

The Python code works on machine floats; the embedding models every numeric
value as an exact rational (`ℚ`), with Python float literals read as exact
decimals.  Candle lists are ordered oldest → newest, as in the source.
Fallible code paths (indexing the last candle of a possibly-empty list,
the empty feature record) are modelled with `Option`.
-/

set_option maxRecDepth 40000
set_option maxHeartbeats 1600000

namespace BehaviourBot

/-- Trade direction; Python uses the strings "long" / "short", absence of a
direction is `Option.none`. -/
inductive Dir where
  | long
  | short
deriving DecidableEq

/-- Wick bias categories "buy" / "sell" / "mixed" from `features.py`. -/
inductive WickBias where
  | buy
  | sell
  | mixed
deriving DecidableEq

/-- HTF dominance "bull" / "bear" / "none". -/
inductive HtfDom where
  | bull
  | bear
  | none
deriving DecidableEq

/-- HTF drift "up" / "down" / "flat". -/
inductive Drift where
  | up
  | down
  | flat
deriving DecidableEq

/-- HTF volatility mode "expand" / "contract" / "normal". -/
inductive VolMode where
  | expand
  | contract
  | normal
deriving DecidableEq

/-- Signal quality tier; Python strings "NONE" / "B" / "A" / "A+". -/
inductive Tier where
  | NONE
  | B
  | A
  | Aplus
deriving DecidableEq

/-- One OHLC candle (`Candle` TypedDict from `binance/ohlc_buffer.py`). -/
structure Candle where
  open_ : ℚ
  high : ℚ
  low : ℚ
  close : ℚ
deriving DecidableEq

/-- Immutable configuration, `behaviour/behaviour_settings.py`. -/
structure BehaviourSettings where
  min_candles : ℕ := 40
  feature_window : ℕ := 40
  htf_window : ℕ := 12
  flush_lookback : ℕ := 20
  flush_min_depth_ratio : ℚ := 0.35
  small_body_factor : ℚ := 0.45
  big_wick_ratio : ℚ := 0.35
  chop_weight_color_flip : ℚ := 0.4
  chop_weight_small_body : ℚ := 0.3
  chop_weight_two_sided_wick : ℚ := 0.3
  chop_high_threshold : ℚ := 65
  chop_low_threshold : ℚ := 35
  htf_drift_tolerance_pct : ℚ := 0.15
  min_score_to_send : ℚ := 70
  a_plus_score : ℚ := 85
  min_rr_tp2 : ℚ := 1.6
  noise_lookback : ℕ := 20
  noise_wick_factor : ℚ := 0.9
  noise_range_factor : ℚ := 0.6
  max_risk_factor : ℚ := 4


/-- The module-level singleton `behaviour_settings = BehaviourSettings()`. -/
def behaviour_settings : BehaviourSettings := {}

/-- `BehaviourSettings.leverage_range_for_sl`: static leverage lookup keyed by
SL% breakpoints (pure output, does not feed back into level computation). -/
def leverage_range_for_sl (sl_pct : ℚ) : ℚ × ℚ :=
  if sl_pct ≤ 0 then (5, 10)
  else if sl_pct ≤ 0.25 then (20, 30)
  else if sl_pct ≤ 0.40 then (15, 25)
  else if sl_pct ≤ 0.70 then (8, 15)
  else if sl_pct ≤ 1.50 then (5, 8)
  else (3, 5)

/-- The named feature record produced by `compute_features`. -/
structure FeatureRecord where
  bull_body_sum : ℚ
  bear_body_sum : ℚ
  bull_count : ℚ
  bear_count : ℚ
  net_flow : ℚ
  avg_body : ℚ
  avg_range : ℚ
  body_trend : ℚ
  range_trend : ℚ
  avg_up_wick : ℚ
  avg_down_wick : ℚ
  wick_bias : WickBias
  micro_low : ℚ
  micro_high : ℚ
  pos_in_range : ℚ
  last_price : ℚ
  has_flush_down : Bool
  has_flush_up : Bool
  flush_depth_down : ℚ
  flush_depth_up : ℚ
  chop_score : ℚ
  htf_dom : HtfDom
  htf_drift : Drift
  htf_vol_mode : VolMode
  htf_wick_bias : WickBias
deriving DecidableEq

/-- One category evaluator result: `{"score": float, "bias": ...}`. -/
structure CatResult where
  score : ℚ
  bias : Option Dir
deriving DecidableEq

/-- The seven category results keyed "elr".."hbp" (`eval_all_categories`). -/
structure Cats where
  elr : CatResult
  far : CatResult
  cec : CatResult
  mc : CatResult
  vsde : CatResult
  awp : CatResult
  hbp : CatResult
deriving DecidableEq

/-- Result of `_choose_direction`. -/
structure DirInfo where
  direction : Option Dir
  bias_long_score : ℚ
  bias_short_score : ℚ
deriving DecidableEq

/-- Result of `aggregate_opportunity` (the pass-through `components` field is
the unmodified `Cats` argument and is omitted here). -/
structure Opp where
  score : ℚ
  direction : Option Dir
  bias_long_score : ℚ
  bias_short_score : ℚ
deriving DecidableEq

/-- Result of `build_levels`. -/
structure LevelSet where
  entry : ℚ
  sl : ℚ
  tp1 : ℚ
  tp2 : ℚ
  tp3 : ℚ
  sl_pct : ℚ
  lev_min : ℚ
  lev_max : ℚ
deriving DecidableEq

/-- Modelled from the spec: the process state consulted by the analyzer
(`core/bot_state.py` is not under `src/`).  Per spec section 6 it is exactly
"a minimum-tier gate and a debug flag, owned by a collaborator; read-only per
cycle"; `state.min_tier or "A"` in the analyzer means an unset minimum tier
defaults to "A", which `Option.getD` reproduces. -/
structure BotState where
  min_tier : Option Tier
  debug : Bool
deriving DecidableEq

/-- The final signal record returned by `analyze_symbol_behaviour` (numeric and
categorical fields; the symbol string, rendered alert text and the feature /
category / HTF-context snapshots are verbatim copies of values already modelled
and are omitted). -/
structure SignalRecord where
  side : Dir
  entry : ℚ
  sl : ℚ
  tp1 : ℚ
  tp2 : ℚ
  tp3 : ℚ
  sl_pct : ℚ
  lev_min : ℚ
  lev_max : ℚ
  tier : Tier
  score : ℚ
deriving DecidableEq

/-! ## features.py -/

/-- `_safe_mean`. -/
def safe_mean (values : List ℚ) : ℚ :=
  if values = [] then 0 else values.sum / values.length

/-- `_window`: the trailing `length` candles. -/
def window (candles : List Candle) (length : ℕ) : List Candle :=
  if candles.length ≤ length then candles else candles.drop (candles.length - length)

/-- `_body`. -/
def body (c : Candle) : ℚ := |c.close - c.open_|

/-- `_range`. -/
def crange (c : Candle) : ℚ := c.high - c.low

/-- `_upper_wick`. -/
def upper_wick (c : Candle) : ℚ := c.high - max c.open_ c.close

/-- `_lower_wick`. -/
def lower_wick (c : Candle) : ℚ := min c.open_ c.close - c.low

/-- Result of `_leg_flow`. -/
structure LegFlow where
  bull_body_sum : ℚ
  bear_body_sum : ℚ
  bull_count : ℚ
  bear_count : ℚ
  net_flow : ℚ
deriving DecidableEq

/-- `_leg_flow`: per-side body sums and candle counts, net flow. -/
def leg_flow (segment : List Candle) : LegFlow :=
  let a := segment.foldl
    (fun (a : LegFlow) c =>
      let b := c.close - c.open_
      if b > 0 then ⟨a.bull_body_sum + b, a.bear_body_sum, a.bull_count + 1, a.bear_count, 0⟩
      else if b < 0 then ⟨a.bull_body_sum, a.bear_body_sum + |b|, a.bull_count, a.bear_count + 1, 0⟩
      else a)
    ⟨0, 0, 0, 0, 0⟩
  ⟨a.bull_body_sum, a.bear_body_sum, a.bull_count, a.bear_count,
    a.bull_body_sum - a.bear_body_sum⟩

/-- `_trend_from_halves`: (mean of second half / mean of first half) − 1. -/
def trend_from_halves (values : List ℚ) : ℚ :=
  let n := values.length
  if n < 4 then 0
  else
    let mid := n / 2
    let first := safe_mean (values.take mid)
    let second := safe_mean (values.drop mid)
    if first ≤ 0 then 0 else second / first - 1

/-- `_wick_bias`. -/
def wick_bias_of (avg_up avg_down : ℚ) : WickBias :=
  if avg_up ≤ 0 ∧ avg_down ≤ 0 then WickBias.mixed
  else if avg_down > 1.3 * avg_up then WickBias.buy
  else if avg_up > 1.3 * avg_down then WickBias.sell
  else WickBias.mixed

/-- Result of `_compute_basic_stats`. -/
structure BasicStats where
  avg_body : ℚ
  avg_range : ℚ
  avg_up_wick : ℚ
  avg_down_wick : ℚ
  body_trend : ℚ
  range_trend : ℚ
deriving DecidableEq

/-- `_compute_basic_stats`. -/
def compute_basic_stats (segment : List Candle) : BasicStats :=
  let bodies := segment.map body
  let ranges := segment.map crange
  ⟨safe_mean bodies, safe_mean ranges,
    safe_mean (segment.map upper_wick), safe_mean (segment.map lower_wick),
    trend_from_halves bodies, trend_from_halves ranges⟩

/-- Result of `_detect_flush`. -/
structure FlushInfo where
  has_flush_down : Bool
  has_flush_up : Bool
  flush_depth_down : ℚ
  flush_depth_up : ℚ
deriving DecidableEq

/-- Minimum of a list (Python `min` on a non-empty list; 0 on `[]`, which the
callers guard against). -/
def list_min : List ℚ → ℚ
  | [] => 0
  | x :: xs => xs.foldl min x

/-- Maximum of a list (Python `max` on a non-empty list). -/
def list_max : List ℚ → ℚ
  | [] => 0
  | x :: xs => xs.foldl max x

/-- Last element of a list with a default (Python `xs[-1]` under a non-empty
guard). -/
def list_last (xs : List Candle) : Candle :=
  xs.getLastD ⟨0, 0, 0, 0⟩

/-- `_detect_flush`: most recent candle's low/high against the preceding
`lookback` candles (excluding itself). -/
def detect_flush (candles : List Candle) (avg_range : ℚ) (lookback : ℕ) : FlushInfo :=
  let n := candles.length
  if n < lookback + 2 ∨ avg_range ≤ 0 then ⟨false, false, 0, 0⟩
  else
    let last := list_last candles
    let src := (candles.drop (n - (lookback + 1))).dropLast
    if src = [] then ⟨false, false, 0, 0⟩
    else
      let prev_min_low := list_min (src.map (·.low))
      let prev_max_high := list_max (src.map (·.high))
      let r := behaviour_settings.flush_min_depth_ratio
      let depth_down_ratio := max 0 (prev_min_low - last.low) / avg_range
      let depth_up_ratio := max 0 (last.high - prev_max_high) / avg_range
      ⟨decide (depth_down_ratio ≥ r), decide (depth_up_ratio ≥ r),
        depth_down_ratio, depth_up_ratio⟩

/-- `_compute_chop_score`: weighted blend of color-flip, small-body and
two-sided-wick ratios, scaled to 0–100. -/
def compute_chop_score (segment : List Candle) (avg_body : ℚ) : ℚ :=
  let n := segment.length
  if n < 5 ∨ avg_body ≤ 0 then 0
  else
    let flips := (segment.foldl
      (fun (st : ℕ × Int) c =>
        let diff := c.close - c.open_
        let sign : Int := if diff > 0 then 1 else if diff < 0 then -1 else 0
        let f := if st.2 ≠ 0 ∧ sign ≠ 0 ∧ sign ≠ st.2 then st.1 + 1 else st.1
        let prev := if sign ≠ 0 then sign else st.2
        (f, prev))
      (0, 0)).1
    let color_flip_ratio : ℚ := (flips : ℚ) / ((max (n - 1) 1 : ℕ) : ℚ)
    let small_body_count :=
      segment.countP (fun c => decide (body c < behaviour_settings.small_body_factor * avg_body))
    let small_body_ratio : ℚ := (small_body_count : ℚ) / (n : ℚ)
    let two_sided_count := segment.countP (fun c =>
      decide (0 < crange c ∧
        behaviour_settings.big_wick_ratio ≤ upper_wick c / crange c ∧
        behaviour_settings.big_wick_ratio ≤ lower_wick c / crange c))
    let two_sided_ratio : ℚ := (two_sided_count : ℚ) / (n : ℚ)
    let raw := behaviour_settings.chop_weight_color_flip * color_flip_ratio +
      behaviour_settings.chop_weight_small_body * small_body_ratio +
      behaviour_settings.chop_weight_two_sided_wick * two_sided_ratio
    max 0 (min (raw * 100) 100)

/-- `_compute_micro_range`: (micro low, micro high, clamped position of the
last close in that range). -/
def compute_micro_range (segment : List Candle) : ℚ × ℚ × ℚ :=
  if segment = [] then (0, 0, 0.5)
  else
    let micro_high := list_max (segment.map (·.high))
    let micro_low := list_min (segment.map (·.low))
    let last_price := (list_last segment).close
    let pos :=
      if micro_high ≤ micro_low then (0.5 : ℚ)
      else min 1 (max 0 ((last_price - micro_low) / (micro_high - micro_low)))
    (micro_low, micro_high, pos)

/-- Result of `_compute_htf_virtual`. -/
structure HtfInfo where
  htf_dom : HtfDom
  htf_drift : Drift
  htf_vol_mode : VolMode
  htf_wick_bias : WickBias
deriving DecidableEq

/-- `_compute_htf_virtual`: leg flow, drift, volatility mode and wick bias on
the trailing `htf_window` candles. -/
def compute_htf_virtual (candles : List Candle) : HtfInfo :=
  let seg := window candles behaviour_settings.htf_window
  if seg.length < 4 then ⟨HtfDom.none, Drift.flat, VolMode.normal, WickBias.mixed⟩
  else
    let flow := leg_flow seg
    let dom :=
      if flow.net_flow > max flow.bull_body_sum flow.bear_body_sum * 0.25 then HtfDom.bull
      else if flow.net_flow < -(max flow.bull_body_sum flow.bear_body_sum * 0.25) then HtfDom.bear
      else HtfDom.none
    let closes := seg.map (·.close)
    let first_close := closes.headD 0
    let last_close := closes.getLastD 0
    let drift_tol := behaviour_settings.htf_drift_tolerance_pct
    let drift :=
      if first_close > 0 then
        let pct := (last_close - first_close) / first_close * 100
        if pct > drift_tol then Drift.up
        else if pct < -drift_tol then Drift.down
        else Drift.flat
      else Drift.flat
    let ranges := seg.map crange
    let vol_mode :=
      if ranges.length ≥ 4 then
        let mid := ranges.length / 2
        let r1 := safe_mean (ranges.take mid)
        let r2 := safe_mean (ranges.drop mid)
        if r1 > 0 then
          if r2 / r1 > 1.15 then VolMode.expand
          else if r2 / r1 < 0.85 then VolMode.contract
          else VolMode.normal
        else VolMode.normal
      else VolMode.normal
    let wb := wick_bias_of (safe_mean (seg.map upper_wick)) (safe_mean (seg.map lower_wick))
    ⟨dom, drift, vol_mode, wb⟩

/-- The record built by `compute_features` on a non-empty candle list. -/
def mk_features (candles : List Candle) : FeatureRecord :=
  let segment := window candles behaviour_settings.feature_window
  let basic := compute_basic_stats segment
  let wb := wick_bias_of basic.avg_up_wick basic.avg_down_wick
  let flow := leg_flow segment
  let micro := compute_micro_range segment
  let chop := compute_chop_score segment basic.avg_body
  let flush := detect_flush segment basic.avg_range behaviour_settings.flush_lookback
  let htf := compute_htf_virtual candles
  { bull_body_sum := flow.bull_body_sum
    bear_body_sum := flow.bear_body_sum
    bull_count := flow.bull_count
    bear_count := flow.bear_count
    net_flow := flow.net_flow
    avg_body := basic.avg_body
    avg_range := basic.avg_range
    body_trend := basic.body_trend
    range_trend := basic.range_trend
    avg_up_wick := basic.avg_up_wick
    avg_down_wick := basic.avg_down_wick
    wick_bias := wb
    micro_low := micro.1
    micro_high := micro.2.1
    pos_in_range := micro.2.2
    last_price := (list_last segment).close
    has_flush_down := flush.has_flush_down
    has_flush_up := flush.has_flush_up
    flush_depth_down := flush.flush_depth_down
    flush_depth_up := flush.flush_depth_up
    chop_score := chop
    htf_dom := htf.htf_dom
    htf_drift := htf.htf_drift
    htf_vol_mode := htf.htf_vol_mode
    htf_wick_bias := htf.htf_wick_bias }

/-- `compute_features`: empty input gives the empty record (`{}` in Python),
modelled as `Option.none`. -/
def compute_features (candles : List Candle) : Option FeatureRecord :=
  if candles = [] then none else some (mk_features candles)

/-! ## categories.py -/

/-- `eval_elr` — Exhausted Leg Reversal (ceiling 25). -/
def eval_elr (f : FeatureRecord) : CatResult :=
  let total_candles := f.bull_count + f.bear_count
  if total_candles < 6 then ⟨0, none⟩
  else
    let leg_strength := |f.net_flow| / max total_candles 1
    if leg_strength ≤ 0 then ⟨0, none⟩
    else
      let sb : ℚ × Option Dir :=
        if f.net_flow < 0 then
          if f.body_trend < -0.05 ∧ (f.wick_bias = WickBias.buy ∨ f.wick_bias = WickBias.mixed) ∧
              f.pos_in_range ≤ 0.35 then
            (15 + max 0 ((0.35 - f.pos_in_range) * 40), some Dir.long)
          else (0, none)
        else if f.net_flow > 0 then
          if f.body_trend < -0.05 ∧ (f.wick_bias = WickBias.sell ∨ f.wick_bias = WickBias.mixed) ∧
              f.pos_in_range ≥ 0.65 then
            (15 + max 0 ((f.pos_in_range - 0.65) * 40), some Dir.short)
          else (0, none)
        else (0, none)
      let s := if sb.1 > 0 ∧ f.chop_score > behaviour_settings.chop_high_threshold
        then sb.1 * 0.4 else sb.1
      ⟨max 0 (min s 25), sb.2⟩

/-- `eval_far` — Flush + Absorption Reversal (ceiling 30). -/
def eval_far (f : FeatureRecord) : CatResult :=
  let sb1 : ℚ × Option Dir :=
    if f.has_flush_down ∧ f.pos_in_range ≤ 0.40 then
      (18 + f.flush_depth_down * 20 +
        (if f.wick_bias = WickBias.buy then 4 else if f.wick_bias = WickBias.mixed then 1 else 0),
        some Dir.long)
    else (0, none)
  let sb2 : ℚ × Option Dir :=
    if f.has_flush_up ∧ f.pos_in_range ≥ 0.60 then
      let s2 := 18 + f.flush_depth_up * 20 +
        (if f.wick_bias = WickBias.sell then 4 else if f.wick_bias = WickBias.mixed then 1 else 0)
      if s2 > sb1.1 then (s2, some Dir.short) else sb1
    else sb1
  let s := if sb2.1 > 0 ∧ f.chop_score > behaviour_settings.chop_high_threshold
    then sb2.1 * 0.5 else sb2.1
  ⟨max 0 (min s 30), sb2.2⟩

/-- `eval_cec` — Compression → Expansion Continuation (ceiling 20). -/
def eval_cec (f : FeatureRecord) : CatResult :=
  if |f.net_flow| ≤ 0 then ⟨0, none⟩
  else if f.range_trend ≥ -0.05 then ⟨0, none⟩
  else
    let bias := if f.net_flow > 0 then Dir.long else Dir.short
    let base := (10 : ℚ) +
      (if bias = Dir.long then
        (if f.htf_dom = HtfDom.bull ∨ f.htf_drift = Drift.up then 6 else 0)
      else
        (if f.htf_dom = HtfDom.bear ∨ f.htf_drift = Drift.down then 6 else 0)) +
      (if f.body_trend > -0.2 then 2 else 0)
    let s := if f.chop_score > behaviour_settings.chop_high_threshold then base * 0.3 else base
    ⟨max 0 (min s 20), some bias⟩

/-- `eval_mc` — Momentum Collapse (ceiling 12, never carries a direction). -/
def eval_mc (f : FeatureRecord) : CatResult :=
  if |f.net_flow| ≤ 0 then ⟨0, none⟩
  else if f.body_trend > -0.2 then ⟨0, none⟩
  else if f.wick_bias ≠ WickBias.mixed then ⟨0, none⟩
  else
    let base := if f.chop_score > behaviour_settings.chop_high_threshold
      then (8 : ℚ) * 0.5 else 8
    ⟨max 0 (min base 12), none⟩

/-- `eval_vsde` — Volatility Squeeze → Directional Explosion (ceiling 12). -/
def eval_vsde (f : FeatureRecord) : CatResult :=
  if f.range_trend > -0.10 then ⟨0, none⟩
  else
    let bias : Option Dir :=
      if f.net_flow > 0 then some Dir.long
      else if f.net_flow < 0 then some Dir.short
      else none
    let base := (7 : ℚ) +
      (if bias = some Dir.long ∧ f.htf_drift = Drift.up then 3
        else if bias = some Dir.short ∧ f.htf_drift = Drift.down then 3 else 0)
    let s := if f.chop_score > behaviour_settings.chop_high_threshold then base * 0.4 else base
    ⟨max 0 (min s 12), bias⟩

/-- `eval_awp` — Asymmetric Wick Pressure (ceiling 15). -/
def eval_awp (f : FeatureRecord) : CatResult :=
  if f.avg_up_wick ≤ 0 ∧ f.avg_down_wick ≤ 0 then ⟨0, none⟩
  else if f.wick_bias = WickBias.buy then
    let base := if f.avg_up_wick > 0
      then 6 + min (f.avg_down_wick / f.avg_up_wick) 3 * 2 else (10 : ℚ)
    let s := if f.chop_score > behaviour_settings.chop_high_threshold then base * 0.7 else base
    ⟨max 0 (min s 15), some Dir.long⟩
  else if f.wick_bias = WickBias.sell then
    let base := if f.avg_down_wick > 0
      then 6 + min (f.avg_up_wick / f.avg_down_wick) 3 * 2 else (10 : ℚ)
    let s := if f.chop_score > behaviour_settings.chop_high_threshold then base * 0.7 else base
    ⟨max 0 (min s 15), some Dir.short⟩
  else ⟨0, none⟩

/-- `eval_hbp` — HTF Behaviour Pivot (ceiling 10).  If both the long-pivot and
the short-pivot condition held, the second branch would replace a long bias by
score 4 with no bias. -/
def eval_hbp (f : FeatureRecord) : CatResult :=
  if f.htf_dom = HtfDom.none then ⟨0, none⟩
  else
    let sb1 : ℚ × Option Dir :=
      if (f.htf_dom = HtfDom.bear ∨ f.htf_drift = Drift.down) ∧
          f.htf_wick_bias = WickBias.buy then
        (8, some Dir.long)
      else (0, none)
    let sb2 : ℚ × Option Dir :=
      if (f.htf_dom = HtfDom.bull ∨ f.htf_drift = Drift.up) ∧
          f.htf_wick_bias = WickBias.sell then
        if sb1.2 = some Dir.long then (4, none) else (8, some Dir.short)
      else sb1
    ⟨max 0 (min sb2.1 10), sb2.2⟩

/-- `eval_all_categories`. -/
def eval_all_categories (f : FeatureRecord) : Cats :=
  ⟨eval_elr f, eval_far f, eval_cec f, eval_mc f, eval_vsde f, eval_awp f, eval_hbp f⟩

/-! ## scoring.py -/

/-- Sum of the scores of long-biased categories (the `bias_long_score`
accumulator of `_choose_direction`). -/
def bias_long_sum (cats : Cats) : ℚ :=
  (if cats.elr.bias = some Dir.long then cats.elr.score else 0) +
  (if cats.far.bias = some Dir.long then cats.far.score else 0) +
  (if cats.cec.bias = some Dir.long then cats.cec.score else 0) +
  (if cats.mc.bias = some Dir.long then cats.mc.score else 0) +
  (if cats.vsde.bias = some Dir.long then cats.vsde.score else 0) +
  (if cats.awp.bias = some Dir.long then cats.awp.score else 0) +
  (if cats.hbp.bias = some Dir.long then cats.hbp.score else 0)

/-- Sum of the scores of short-biased categories. -/
def bias_short_sum (cats : Cats) : ℚ :=
  (if cats.elr.bias = some Dir.short then cats.elr.score else 0) +
  (if cats.far.bias = some Dir.short then cats.far.score else 0) +
  (if cats.cec.bias = some Dir.short then cats.cec.score else 0) +
  (if cats.mc.bias = some Dir.short then cats.mc.score else 0) +
  (if cats.vsde.bias = some Dir.short then cats.vsde.score else 0) +
  (if cats.awp.bias = some Dir.short then cats.awp.score else 0) +
  (if cats.hbp.bias = some Dir.short then cats.hbp.score else 0)

/-- `_choose_direction`. -/
def choose_direction (cats : Cats) : DirInfo :=
  let bl := bias_long_sum cats
  let bs := bias_short_sum cats
  if bl < 1 ∧ bs < 1 then ⟨none, bl, bs⟩
  else if bl > bs * 1.3 then ⟨some Dir.long, bl, bs⟩
  else if bs > bl * 1.3 then ⟨some Dir.short, bl, bs⟩
  else ⟨none, bl, bs⟩

/-- `aggregate_opportunity`. -/
def aggregate_opportunity (features : FeatureRecord) (cats : Cats) : Opp :=
  let di := choose_direction cats
  let score_mc := cats.mc.score
  match di.direction with
  | none => ⟨0, none, di.bias_long_score, di.bias_short_score⟩
  | some d =>
    let base_score :=
      (if d = Dir.long then di.bias_long_score else di.bias_short_score) + 0.5 * score_mc
    let base1 :=
      if features.chop_score ≥ behaviour_settings.chop_high_threshold then base_score * 0.35
      else if features.chop_score ≥ behaviour_settings.chop_low_threshold then base_score * 0.7
      else base_score
    let base2 :=
      if d = Dir.long then
        if features.htf_dom = HtfDom.bear ∧ features.htf_drift = Drift.down
          then base1 * 0.6 else base1
      else
        if features.htf_dom = HtfDom.bull ∧ features.htf_drift = Drift.up
          then base1 * 0.6 else base1
    ⟨max 0 (min base2 150), some d, di.bias_long_score, di.bias_short_score⟩

/-! ## levels.py -/

/-- `_dynamic_rr_factors`: reward multiples (rr1, rr2, rr3) from the score. -/
def dynamic_rr_factors (score : ℚ) : ℚ × ℚ × ℚ :=
  let s_norm := max 0 (min score 100) / 100
  let min_rr2 := behaviour_settings.min_rr_tp2
  let max_rr2 := min_rr2 + 0.8
  let rr2 := min_rr2 + (max_rr2 - min_rr2) * s_norm
  (0.7 * rr2, rr2, rr2 + 0.8)

/-- `_compute_noise_floor`: (noise floor for the risk, local average range). -/
def compute_noise_floor (candles_5m : List Candle) (features : FeatureRecord) : ℚ × ℚ :=
  let n := candles_5m.length
  if n = 0 then (0, 0)
  else
    let segment := candles_5m.drop (n - behaviour_settings.noise_lookback)
    if segment = [] then (0, 0)
    else
      let good := segment.filter (fun c => decide (0 < crange c))
      if good = [] then (0, 0)
      else
        let avg_range_local0 := (good.map crange).sum / good.length
        let avg_upper := safe_mean (good.map upper_wick)
        let avg_lower := safe_mean (good.map lower_wick)
        let avg_wick := 0.5 * (avg_upper + avg_lower)
        let avg_range_local :=
          if avg_range_local0 ≤ 0 then
            if features.avg_range > 0 then features.avg_range else avg_range_local0
          else avg_range_local0
        let wick_floor := if avg_wick > 0 then behaviour_settings.noise_wick_factor * avg_wick else 0
        let range_floor := if avg_range_local > 0
          then behaviour_settings.noise_range_factor * avg_range_local else 0
        let floor := max wick_floor range_floor
        if floor ≤ 0 then (0, avg_range_local) else (floor, avg_range_local)

/-- The entry and adjusted raw stop computed by `build_levels` up to and
including the noise-floor and volatility-ceiling steps (before the zero-risk
fallback).  `build_levels` refines this; exposed so that the zero-risk
fallback condition can be stated. -/
def build_levels_pre (side : Dir) (candles_5m : List Candle) (features : FeatureRecord) :
    Option (ℚ × ℚ) :=
  match candles_5m.getLast? with
  | none => none
  | some last =>
    let rng := max (last.high - last.low) (1 / 1000000000)
    let last_price := last.close
    let avg_range_feat := features.avg_range
    let base_buffer := 0.15 * rng + 0.10 * avg_range_feat
    let entry0 :=
      if side = Dir.long then min (last.low + 0.25 * rng) last_price
      else max (last.high - 0.25 * rng) last_price
    let sl_raw0 :=
      if side = Dir.long then last.low - base_buffer else last.high + base_buffer
    let entry := if entry0 = 0 then last_price else entry0
    let nf := compute_noise_floor candles_5m features
    let noise_floor_abs := nf.1
    let avg_range_local := if nf.2 ≤ 0 then avg_range_feat else nf.2
    let risk0 := |entry - sl_raw0|
    let sl_raw1 :=
      if noise_floor_abs > 0 ∧ risk0 < noise_floor_abs then
        if side = Dir.long then entry - noise_floor_abs else entry + noise_floor_abs
      else sl_raw0
    let risk1 := |entry - sl_raw1|
    let sl_raw2 :=
      if avg_range_local > 0 ∧ risk1 > behaviour_settings.max_risk_factor * avg_range_local then
        let max_risk_allowed := behaviour_settings.max_risk_factor * avg_range_local
        if side = Dir.long then entry - max_risk_allowed else entry + max_risk_allowed
      else sl_raw1
    some (entry, sl_raw2)

/-- `build_levels`: Entry / SL / TPs / SL% / leverage band. -/
def build_levels (side : Dir) (candles_5m : List Candle) (features : FeatureRecord)
    (opp : Opp) : Option LevelSet :=
  match build_levels_pre side candles_5m features with
  | none => none
  | some (entry, sl_raw) =>
    let risk0 := |entry - sl_raw|
    let sl := if risk0 ≤ 0 then
        (if side = Dir.long then entry - |entry| * 0.003 else entry + |entry| * 0.003)
      else sl_raw
    let risk := if risk0 ≤ 0 then |entry| * 0.003 else risk0
    let sl_pct := if entry ≠ 0 then risk / entry * 100 else 0
    let rr := dynamic_rr_factors opp.score
    let tp1 := if side = Dir.long then entry + rr.1 * risk else entry - rr.1 * risk
    let tp2 := if side = Dir.long then entry + rr.2.1 * risk else entry - rr.2.1 * risk
    let tp3 := if side = Dir.long then entry + rr.2.2 * risk else entry - rr.2.2 * risk
    let lev := leverage_range_for_sl sl_pct
    some ⟨entry, sl, tp1, tp2, tp3, sl_pct, lev.1, lev.2⟩

/-! ## analyzer.py -/

/-- `_tier_from_score`. -/
def tier_from_score (score : ℚ) : Tier :=
  if score ≥ behaviour_settings.a_plus_score then Tier.Aplus
  else if score ≥ behaviour_settings.min_score_to_send + 10 then Tier.A
  else if score ≥ behaviour_settings.min_score_to_send then Tier.B
  else Tier.NONE

/-- The tier ordering NONE < B < A < A+ (the `order` dict). -/
def tier_order : Tier → ℕ
  | Tier.NONE => 0
  | Tier.B => 1
  | Tier.A => 2
  | Tier.Aplus => 3

/-- `_should_send_tier`: an unset minimum tier defaults to "A". -/
def should_send_tier (st : BotState) (tier : Tier) : Bool :=
  tier_order tier ≥ tier_order (st.min_tier.getD Tier.A)

/-- `_is_strong_bull_env`. -/
def is_strong_bull_env (f : FeatureRecord) : Bool :=
  decide ((f.bull_count > f.bear_count * 1.2 ∧ f.net_flow > 0) ∨
    (f.htf_dom = HtfDom.bull ∧ f.htf_drift = Drift.up))

/-- `_is_strong_bear_env`. -/
def is_strong_bear_env (f : FeatureRecord) : Bool :=
  decide ((f.bear_count > f.bull_count * 1.2 ∧ f.net_flow < 0) ∨
    (f.htf_dom = HtfDom.bear ∧ f.htf_drift = Drift.down))

/-- `_fails_anti_countertrend_filter`. -/
def fails_anti_countertrend_filter (side : Dir) (f : FeatureRecord) : Bool :=
  match side with
  | Dir.long => is_strong_bear_env f && !f.has_flush_down
  | Dir.short => is_strong_bull_env f && !f.has_flush_up

/-- `analyze_symbol_behaviour`: the full linear gate chain.  The symbol string
and the rendered alert text do not influence any gate and are omitted from the
returned record. -/
def analyze_symbol_behaviour (st : BotState) (candles_5m : List Candle) :
    Option SignalRecord :=
  if candles_5m.length < behaviour_settings.min_candles then none
  else
    match compute_features candles_5m with
    | none => none
    | some features =>
      let cats := eval_all_categories features
      let opp := aggregate_opportunity features cats
      match opp.direction with
      | none => none
      | some side =>
        if opp.score < behaviour_settings.min_score_to_send then none
        else if fails_anti_countertrend_filter side features then none
        else
          match build_levels side candles_5m features opp with
          | none => none
          | some lv =>
            let risk := |lv.entry - lv.sl|
            if risk ≤ 0 then none
            else if |lv.tp2 - lv.entry| / risk < behaviour_settings.min_rr_tp2 then none
            else
              let tier := tier_from_score opp.score
              if ¬ should_send_tier st tier then none
              else some ⟨side, lv.entry, lv.sl, lv.tp1, lv.tp2, lv.tp3, lv.sl_pct,
                lv.lev_min, lv.lev_max, tier, opp.score⟩

/-! ## Derived observables and inputs used by the verification statements -/

/-- The opportunity score a cycle computes for a candle list (0 when the
feature record is empty): the composition of `compute_features`,
`eval_all_categories` and `aggregate_opportunity` used by the analyzer. -/
def cycle_score (candles_5m : List Candle) : ℚ :=
  match compute_features candles_5m with
  | none => 0
  | some f => (aggregate_opportunity f (eval_all_categories f)).score

/-- The analyzer outcome emits a record on the given side. -/
def emits_side (d : Dir) (o : Option SignalRecord) : Prop :=
  ∃ r, o = some r ∧ r.side = d

/-- Well-formed OHLC data: the low is below both body ends and the high above
both (spec section 7 declares anything else out of contract). -/
def well_formed (candles : List Candle) : Prop :=
  ∀ c ∈ candles, c.low ≤ min c.open_ c.close ∧ max c.open_ c.close ≤ c.high

instance (candles : List Candle) : Decidable (well_formed candles) := by
  unfold well_formed
  infer_instance

/-- Index of one of the seven categories. -/
inductive CatKey where
  | elr
  | far
  | cec
  | mc
  | vsde
  | awp
  | hbp
deriving DecidableEq

/-- Project one category result out of `Cats`. -/
def get_cat (cats : Cats) : CatKey → CatResult
  | CatKey.elr => cats.elr
  | CatKey.far => cats.far
  | CatKey.cec => cats.cec
  | CatKey.mc => cats.mc
  | CatKey.vsde => cats.vsde
  | CatKey.awp => cats.awp
  | CatKey.hbp => cats.hbp

/-- Raise the score of one category by `d`, holding everything else fixed. -/
def bump (cats : Cats) (k : CatKey) (d : ℚ) : Cats :=
  match k with
  | CatKey.elr => { cats with elr := ⟨cats.elr.score + d, cats.elr.bias⟩ }
  | CatKey.far => { cats with far := ⟨cats.far.score + d, cats.far.bias⟩ }
  | CatKey.cec => { cats with cec := ⟨cats.cec.score + d, cats.cec.bias⟩ }
  | CatKey.mc => { cats with mc := ⟨cats.mc.score + d, cats.mc.bias⟩ }
  | CatKey.vsde => { cats with vsde := ⟨cats.vsde.score + d, cats.vsde.bias⟩ }
  | CatKey.awp => { cats with awp := ⟨cats.awp.score + d, cats.awp.bias⟩ }
  | CatKey.hbp => { cats with hbp := ⟨cats.hbp.score + d, cats.hbp.bias⟩ }

/-- The pre-dampening opportunity score of `aggregate_opportunity`: the
winning-side sum plus half the MC score (0 with no direction). -/
def pre_damp_score (cats : Cats) : ℚ :=
  match (choose_direction cats).direction with
  | some Dir.long => bias_long_sum cats + 0.5 * cats.mc.score
  | some Dir.short => bias_short_sum cats + 0.5 * cats.mc.score
  | none => 0

/-! ### Concrete evaluation inputs -/

/-- A 40-bar downtrend: 20 bear bars of body 10, then 19 identical small bear
bars (body 5, lower wick 5) with flat closes, and a final bar whose low
pierces the preceding 20-bar minimum (a downward flush). -/
def csA : List Candle :=
  ((List.range 20).map
    (fun k => ⟨1000 - 10 * (k : ℚ), 1000 - 10 * (k : ℚ), 990 - 10 * (k : ℚ), 990 - 10 * (k : ℚ)⟩)) ++
  ((List.range 19).map (fun _ => ⟨705, 705, 695, 700⟩)) ++
  [⟨705, 705, 690, 700⟩]

/-- The record the analyzer emits on `csA` when the minimum tier is B. -/
def recA : SignalRecord :=
  ⟨Dir.long, 2775/4, 54939/80, 70447071/100000, 7090653/10000, 7146753/10000,
    187/185, 5, 8, Tier.B, 73⟩

/-- Forty identical bear bars: a strong bear environment with no flush. -/
def csB : List Candle := (List.range 40).map (fun _ => ⟨100, 100, 99, 99⟩)

/-- The feature record computed on `csB`. -/
def fB : FeatureRecord :=
  ⟨0, 40, 0, 40, -40, 1, 1, 0, 0, 0, 0, WickBias.mixed, 99, 100, 0, 99,
    false, false, 0, 0, 0, HtfDom.bear, Drift.flat, VolMode.normal, WickBias.mixed⟩

/-- A single degenerate bar whose close sits exactly where the raw stop lands,
so that the initial risk is zero (spec section 8, Scenario C). -/
def cs3 : List Candle := [⟨1, 1, 1, 1 - 3/20000000000⟩]

/-- An all-neutral feature record (zero flows, mixed biases, no flush). -/
def fZ : FeatureRecord :=
  ⟨0, 0, 0, 0, 0, 0, 0, 0, 0, 0, 0, WickBias.mixed, 0, 0, 0, 0,
    false, false, 0, 0, 0, HtfDom.none, Drift.flat, VolMode.normal, WickBias.mixed⟩

/-- A zero-score opportunity with no direction. -/
def opp3 : Opp := ⟨0, none, 0, 0⟩

/-- Seven category results with a single strong long bias. -/
def catsW : Cats :=
  ⟨⟨25, some Dir.long⟩, ⟨0, none⟩, ⟨0, none⟩, ⟨0, none⟩, ⟨0, none⟩, ⟨0, none⟩, ⟨0, none⟩⟩


/-- A bot state with no minimum tier configured. -/
def stN : BotState := ⟨none, false⟩

/-- A bot state whose minimum tier is B. -/
def stB : BotState := ⟨some Tier.B, false⟩

/-- The level set built on `cs3` (zero-risk fallback engaged). -/
def ls3 : LevelSet :=
  ⟨19999999997/20000000000, 19939999997009/20000000000000,
    125419999981187/125000000000000, 3139999999529/3125000000000,
    25179999996223/25000000000000, 3/10, 15, 25⟩

/-- Seven all-zero category results. -/
def catsZ : Cats :=
  ⟨⟨0, none⟩, ⟨0, none⟩, ⟨0, none⟩, ⟨0, none⟩, ⟨0, none⟩, ⟨0, none⟩, ⟨0, none⟩⟩

/-! ## Helper lemmas -/


theorem clamp_nonneg (s c : ℚ) : 0 ≤ max 0 (min s c) := le_max_left 0 _

theorem clamp_le (s c : ℚ) (hc : 0 ≤ c) : max 0 (min s c) ≤ c :=
  max_le hc (min_le_right s c)

theorem ite_bias_nonneg (c : CatResult) (d : Dir) (h : 0 ≤ c.score) :
    0 ≤ if c.bias = some d then c.score else 0 := by
  split_ifs <;> simp [h]

theorem ite_bias_le (c : CatResult) (d : Dir) (b : ℚ) (h : c.score ≤ b) (hb : 0 ≤ b) :
    (if c.bias = some d then c.score else 0) ≤ b := by
  split_ifs <;> simp [h, hb]

theorem eval_elr_score_bounds (f : FeatureRecord) :
    0 ≤ (eval_elr f).score ∧ (eval_elr f).score ≤ 25 := by
  simp only [eval_elr]
  split_ifs <;>
    first
      | exact ⟨le_refl 0, by norm_num⟩
      | exact ⟨clamp_nonneg _ _, clamp_le _ _ (by norm_num)⟩

theorem eval_far_score_bounds (f : FeatureRecord) :
    0 ≤ (eval_far f).score ∧ (eval_far f).score ≤ 30 := by
  simp only [eval_far]
  split_ifs <;>
    first
      | exact ⟨le_refl 0, by norm_num⟩
      | exact ⟨clamp_nonneg _ _, clamp_le _ _ (by norm_num)⟩

theorem eval_cec_score_bounds (f : FeatureRecord) :
    0 ≤ (eval_cec f).score ∧ (eval_cec f).score ≤ 20 := by
  simp only [eval_cec]
  split_ifs <;>
    first
      | exact ⟨le_refl 0, by norm_num⟩
      | exact ⟨clamp_nonneg _ _, clamp_le _ _ (by norm_num)⟩

theorem eval_mc_score_bounds (f : FeatureRecord) :
    0 ≤ (eval_mc f).score ∧ (eval_mc f).score ≤ 12 := by
  simp only [eval_mc]
  split_ifs <;>
    first
      | exact ⟨le_refl 0, by norm_num⟩
      | exact ⟨clamp_nonneg _ _, clamp_le _ _ (by norm_num)⟩

theorem eval_vsde_score_bounds (f : FeatureRecord) :
    0 ≤ (eval_vsde f).score ∧ (eval_vsde f).score ≤ 12 := by
  simp only [eval_vsde]
  split_ifs <;>
    first
      | exact ⟨le_refl 0, by norm_num⟩
      | exact ⟨clamp_nonneg _ _, clamp_le _ _ (by norm_num)⟩

theorem eval_awp_score_bounds (f : FeatureRecord) :
    0 ≤ (eval_awp f).score ∧ (eval_awp f).score ≤ 15 := by
  simp only [eval_awp]
  split_ifs <;>
    first
      | exact ⟨le_refl 0, by norm_num⟩
      | exact ⟨clamp_nonneg _ _, clamp_le _ _ (by norm_num)⟩

theorem eval_hbp_score_bounds (f : FeatureRecord) :
    0 ≤ (eval_hbp f).score ∧ (eval_hbp f).score ≤ 10 := by
  simp only [eval_hbp]
  split_ifs <;>
    first
      | exact ⟨le_refl 0, by norm_num⟩
      | exact ⟨clamp_nonneg _ _, clamp_le _ _ (by norm_num)⟩

theorem eval_elr_bias_long (f : FeatureRecord)
    (h : (eval_elr f).bias = some Dir.long) : f.net_flow < 0 := by
  simp only [eval_elr] at h
  split_ifs at h <;> simp_all

theorem eval_elr_bias_short (f : FeatureRecord)
    (h : (eval_elr f).bias = some Dir.short) : 0 < f.net_flow := by
  simp only [eval_elr] at h
  split_ifs at h <;> simp_all

theorem eval_far_bias_long (f : FeatureRecord)
    (h : (eval_far f).bias = some Dir.long) : f.has_flush_down = true := by
  simp only [eval_far] at h
  split_ifs at h <;> simp_all

theorem eval_far_bias_short (f : FeatureRecord)
    (h : (eval_far f).bias = some Dir.short) : f.has_flush_up = true := by
  simp only [eval_far] at h
  split_ifs at h <;> simp_all

theorem bias_long_sum_nonneg (f : FeatureRecord) :
    0 ≤ bias_long_sum (eval_all_categories f) := by
  unfold bias_long_sum eval_all_categories
  dsimp only
  have h1 := (eval_elr_score_bounds f).1
  have h2 := (eval_far_score_bounds f).1
  have h3 := (eval_cec_score_bounds f).1
  have h4 := (eval_mc_score_bounds f).1
  have h5 := (eval_vsde_score_bounds f).1
  have h6 := (eval_awp_score_bounds f).1
  have h7 := (eval_hbp_score_bounds f).1
  have := ite_bias_nonneg (eval_elr f) Dir.long h1
  have := ite_bias_nonneg (eval_far f) Dir.long h2
  have := ite_bias_nonneg (eval_cec f) Dir.long h3
  have := ite_bias_nonneg (eval_mc f) Dir.long h4
  have := ite_bias_nonneg (eval_vsde f) Dir.long h5
  have := ite_bias_nonneg (eval_awp f) Dir.long h6
  have := ite_bias_nonneg (eval_hbp f) Dir.long h7
  linarith

theorem bias_short_sum_nonneg (f : FeatureRecord) :
    0 ≤ bias_short_sum (eval_all_categories f) := by
  unfold bias_short_sum eval_all_categories
  dsimp only
  have h1 := (eval_elr_score_bounds f).1
  have h2 := (eval_far_score_bounds f).1
  have h3 := (eval_cec_score_bounds f).1
  have h4 := (eval_mc_score_bounds f).1
  have h5 := (eval_vsde_score_bounds f).1
  have h6 := (eval_awp_score_bounds f).1
  have h7 := (eval_hbp_score_bounds f).1
  have := ite_bias_nonneg (eval_elr f) Dir.short h1
  have := ite_bias_nonneg (eval_far f) Dir.short h2
  have := ite_bias_nonneg (eval_cec f) Dir.short h3
  have := ite_bias_nonneg (eval_mc f) Dir.short h4
  have := ite_bias_nonneg (eval_vsde f) Dir.short h5
  have := ite_bias_nonneg (eval_awp f) Dir.short h6
  have := ite_bias_nonneg (eval_hbp f) Dir.short h7
  linarith

theorem eval_mc_bias_none (f : FeatureRecord) : (eval_mc f).bias = none := by
  simp only [eval_mc]
  split_ifs <;> rfl

theorem bias_long_sum_le_57 (f : FeatureRecord)
    (helr : (eval_elr f).bias ≠ some Dir.long)
    (hfar : (eval_far f).bias ≠ some Dir.long) :
    bias_long_sum (eval_all_categories f) ≤ 57 := by
  unfold bias_long_sum eval_all_categories
  dsimp only
  have hmcn : (if (eval_mc f).bias = some Dir.long then (eval_mc f).score else 0) = 0 := by
    rw [eval_mc_bias_none f]; simp
  rw [if_neg helr, if_neg hfar, hmcn]
  have h3 := ite_bias_le (eval_cec f) Dir.long 20 (eval_cec_score_bounds f).2 (by norm_num)
  have h5 := ite_bias_le (eval_vsde f) Dir.long 12 (eval_vsde_score_bounds f).2 (by norm_num)
  have h6 := ite_bias_le (eval_awp f) Dir.long 15 (eval_awp_score_bounds f).2 (by norm_num)
  have h7 := ite_bias_le (eval_hbp f) Dir.long 10 (eval_hbp_score_bounds f).2 (by norm_num)
  linarith

theorem bias_short_sum_le_57 (f : FeatureRecord)
    (helr : (eval_elr f).bias ≠ some Dir.short)
    (hfar : (eval_far f).bias ≠ some Dir.short) :
    bias_short_sum (eval_all_categories f) ≤ 57 := by
  unfold bias_short_sum eval_all_categories
  dsimp only
  have hmcn : (if (eval_mc f).bias = some Dir.short then (eval_mc f).score else 0) = 0 := by
    rw [eval_mc_bias_none f]; simp
  rw [if_neg helr, if_neg hfar, hmcn]
  have h3 := ite_bias_le (eval_cec f) Dir.short 20 (eval_cec_score_bounds f).2 (by norm_num)
  have h5 := ite_bias_le (eval_vsde f) Dir.short 12 (eval_vsde_score_bounds f).2 (by norm_num)
  have h6 := ite_bias_le (eval_awp f) Dir.short 15 (eval_awp_score_bounds f).2 (by norm_num)
  have h7 := ite_bias_le (eval_hbp f) Dir.short 10 (eval_hbp_score_bounds f).2 (by norm_num)
  linarith

theorem tier_from_score_eq_B (s : ℚ) (h1 : 70 ≤ s) (h2 : s < 80) :
    tier_from_score s = Tier.B := by
  have e1 : behaviour_settings.a_plus_score = (85 : ℚ) := rfl
  have e2 : behaviour_settings.min_score_to_send = (70 : ℚ) := rfl
  unfold tier_from_score
  rw [e1, e2]
  split_ifs <;> first | rfl | linarith

theorem dynamic_rr_facts (score : ℚ) :
    0 < (dynamic_rr_factors score).1 ∧
      (dynamic_rr_factors score).1 ≤ (dynamic_rr_factors score).2.1 ∧
      (dynamic_rr_factors score).2.1 ≤ (dynamic_rr_factors score).2.2 := by
  have e : behaviour_settings.min_rr_tp2 = (1.6 : ℚ) := rfl
  unfold dynamic_rr_factors
  rw [e]
  dsimp only
  have h0 : (0:ℚ) ≤ max 0 (min score 100) / 100 := by positivity
  refine ⟨by nlinarith, by nlinarith, by nlinarith⟩

theorem safe_mean_nonneg (l : List ℚ) (h : ∀ x ∈ l, 0 ≤ x) : 0 ≤ safe_mean l := by
  unfold safe_mean
  split_ifs
  · exact le_refl 0
  · exact div_nonneg (List.sum_nonneg h) (Nat.cast_nonneg _)

theorem mem_window (cs : List Candle) (n : ℕ) (c : Candle) (h : c ∈ window cs n) :
    c ∈ cs := by
  unfold window at h
  split_ifs at h
  · exact h
  · exact List.drop_subset _ _ h

theorem compute_features_some (cs : List Candle) (f : FeatureRecord)
    (h : compute_features cs = some f) : f = mk_features cs := by
  unfold compute_features at h
  split_ifs at h
  exact (Option.some.inj h).symm

theorem mk_features_avg_range (cs : List Candle) :
    (mk_features cs).avg_range =
      safe_mean ((window cs behaviour_settings.feature_window).map crange) := rfl

theorem avg_range_nonneg (cs : List Candle) (h : well_formed cs) :
    0 ≤ (mk_features cs).avg_range := by
  rw [mk_features_avg_range]
  apply safe_mean_nonneg
  intro x hx
  obtain ⟨c, hc, rfl⟩ := List.mem_map.mp hx
  have hwf := h c (mem_window cs _ c hc)
  unfold crange
  have hmin := min_le_left c.open_ c.close
  have hmax := le_max_left c.open_ c.close
  linarith [hwf.1, hwf.2]

theorem choose_direction_bl (cats : Cats) :
    (choose_direction cats).bias_long_score = bias_long_sum cats := by
  simp only [choose_direction]
  split_ifs <;> rfl

theorem choose_direction_bs (cats : Cats) :
    (choose_direction cats).bias_short_score = bias_short_sum cats := by
  simp only [choose_direction]
  split_ifs <;> rfl

theorem choose_direction_long_inv (cats : Cats)
    (h : (choose_direction cats).direction = some Dir.long) :
    ¬(bias_long_sum cats < 1 ∧ bias_short_sum cats < 1) ∧
      bias_long_sum cats > bias_short_sum cats * 1.3 := by
  simp only [choose_direction] at h
  split_ifs at h with h1 h2 h3 <;> first | exact ⟨h1, h2⟩ | simp at h

theorem choose_direction_short_inv (cats : Cats)
    (h : (choose_direction cats).direction = some Dir.short) :
    ¬(bias_long_sum cats < 1 ∧ bias_short_sum cats < 1) ∧
      bias_short_sum cats > bias_long_sum cats * 1.3 := by
  simp only [choose_direction] at h
  split_ifs at h with h1 h2 h3 <;> first | exact ⟨h1, h3⟩ | simp at h

theorem aggregate_direction_eq (f : FeatureRecord) (cats : Cats) :
    (aggregate_opportunity f cats).direction = (choose_direction cats).direction := by
  rcases hd : choose_direction cats with ⟨d, bl, bs⟩
  unfold aggregate_opportunity
  rw [hd]
  rcases d with _ | d
  · rfl
  · rcases d <;> rfl

theorem aggregate_score_nonneg (f : FeatureRecord) (cats : Cats) :
    0 ≤ (aggregate_opportunity f cats).score := by
  rcases hd : choose_direction cats with ⟨d, bl, bs⟩
  unfold aggregate_opportunity
  rw [hd]
  rcases d with _ | d
  · exact le_refl 0
  · rcases d <;> exact clamp_nonneg _ _

theorem aggregate_score_le_150 (f : FeatureRecord) (cats : Cats) :
    (aggregate_opportunity f cats).score ≤ 150 := by
  rcases hd : choose_direction cats with ⟨d, bl, bs⟩
  unfold aggregate_opportunity
  rw [hd]
  rcases d with _ | d
  · norm_num
  · rcases d <;> exact clamp_le _ 150 (by norm_num)

theorem aggregate_score_zero_of_none (f : FeatureRecord) (cats : Cats)
    (h : (aggregate_opportunity f cats).direction = none) :
    (aggregate_opportunity f cats).score = 0 := by
  rw [aggregate_direction_eq] at h
  rcases hd : choose_direction cats with ⟨d, bl, bs⟩
  rw [hd] at h
  unfold aggregate_opportunity
  rw [hd]
  rcases d with _ | d
  · rfl
  · simp at h

theorem aggregate_score_le_base_long (f : FeatureRecord) (cats : Cats)
    (hd : (choose_direction cats).direction = some Dir.long)
    (hbl : 0 ≤ bias_long_sum cats) (hmc : 0 ≤ cats.mc.score) :
    (aggregate_opportunity f cats).score ≤ bias_long_sum cats + 0.5 * cats.mc.score := by
  rcases hcd : choose_direction cats with ⟨d, bl, bs⟩
  have hbl2 : bl = bias_long_sum cats := by
    have h2 := choose_direction_bl cats
    rw [hcd] at h2
    exact h2
  rw [hcd] at hd
  change d = some Dir.long at hd
  subst hd
  unfold aggregate_opportunity
  rw [hcd]
  dsimp only
  have hbase : (0:ℚ) ≤ bl + 0.5 * cats.mc.score := by rw [hbl2]; nlinarith
  rw [hbl2] at hbase ⊢
  split_ifs <;>
    first
      | exact absurd rfl (by assumption)
      | refine max_le (by nlinarith) (le_trans (min_le_left _ _) (by nlinarith))

theorem aggregate_score_le_base_short (f : FeatureRecord) (cats : Cats)
    (hd : (choose_direction cats).direction = some Dir.short)
    (hbs : 0 ≤ bias_short_sum cats) (hmc : 0 ≤ cats.mc.score) :
    (aggregate_opportunity f cats).score ≤ bias_short_sum cats + 0.5 * cats.mc.score := by
  rcases hcd : choose_direction cats with ⟨d, bl, bs⟩
  have hbs2 : bs = bias_short_sum cats := by
    have h2 := choose_direction_bs cats
    rw [hcd] at h2
    exact h2
  rw [hcd] at hd
  change d = some Dir.short at hd
  subst hd
  unfold aggregate_opportunity
  rw [hcd]
  dsimp only
  have hbase : (0:ℚ) ≤ bs + 0.5 * cats.mc.score := by rw [hbs2]; nlinarith
  rw [hbs2] at hbase ⊢
  split_ifs <;>
    first
      | exact Dir.noConfusion (by assumption : Dir.short = Dir.long)
      | exact (by assumption : False).elim
      | refine max_le (by nlinarith) (le_trans (min_le_left _ _) (by nlinarith))



theorem build_levels_long_inv (cs : List Candle) (f : FeatureRecord) (opp : Opp)
    (lv : LevelSet) (h : build_levels Dir.long cs f opp = some lv) :
    ∃ e s, build_levels_pre Dir.long cs f = some (e, s) ∧ lv.entry = e ∧
      (if |e - s| ≤ 0 then lv.sl = e - |e| * 0.003 else lv.sl = s) ∧
      |lv.entry - lv.sl| = (if |e - s| ≤ 0 then |e| * 0.003 else |e - s|) ∧
      lv.sl_pct = (if e ≠ 0 then |lv.entry - lv.sl| / e * 100 else 0) ∧
      lv.tp1 = e + (dynamic_rr_factors opp.score).1 * |lv.entry - lv.sl| ∧
      lv.tp2 = e + (dynamic_rr_factors opp.score).2.1 * |lv.entry - lv.sl| ∧
      lv.tp3 = e + (dynamic_rr_factors opp.score).2.2 * |lv.entry - lv.sl| := by
  unfold build_levels at h
  cases hp : build_levels_pre Dir.long cs f with
  | none => rw [hp] at h; cases h
  | some es =>
    obtain ⟨e, s⟩ := es
    rw [hp] at h
    dsimp only at h
    refine ⟨e, s, rfl, ?_⟩
    by_cases hr : |e - s| ≤ 0
    · simp only [if_pos hr, eq_self_iff_true, if_true] at h ⊢
      obtain rfl := Option.some.inj h
      dsimp only
      have habs : e - (e - |e| * 0.003) = |e| * 0.003 := by ring
      have hnn : (0:ℚ) ≤ |e| * 0.003 := by positivity
      rw [habs, abs_of_nonneg hnn]
      exact ⟨rfl, rfl, rfl, rfl, rfl, rfl, rfl⟩
    · simp only [if_neg hr, eq_self_iff_true, if_true] at h ⊢
      obtain rfl := Option.some.inj h
      dsimp only
      exact ⟨rfl, rfl, rfl, rfl, rfl, rfl, rfl⟩

theorem build_levels_short_inv (cs : List Candle) (f : FeatureRecord) (opp : Opp)
    (lv : LevelSet) (h : build_levels Dir.short cs f opp = some lv) :
    ∃ e s, build_levels_pre Dir.short cs f = some (e, s) ∧ lv.entry = e ∧
      (if |e - s| ≤ 0 then lv.sl = e + |e| * 0.003 else lv.sl = s) ∧
      |lv.entry - lv.sl| = (if |e - s| ≤ 0 then |e| * 0.003 else |e - s|) ∧
      lv.sl_pct = (if e ≠ 0 then |lv.entry - lv.sl| / e * 100 else 0) ∧
      lv.tp1 = e - (dynamic_rr_factors opp.score).1 * |lv.entry - lv.sl| ∧
      lv.tp2 = e - (dynamic_rr_factors opp.score).2.1 * |lv.entry - lv.sl| ∧
      lv.tp3 = e - (dynamic_rr_factors opp.score).2.2 * |lv.entry - lv.sl| := by
  unfold build_levels at h
  cases hp : build_levels_pre Dir.short cs f with
  | none => rw [hp] at h; cases h
  | some es =>
    obtain ⟨e, s⟩ := es
    rw [hp] at h
    dsimp only at h
    refine ⟨e, s, rfl, ?_⟩
    by_cases hr : |e - s| ≤ 0
    · simp only [if_pos hr, reduceCtorEq, if_false] at h ⊢
      obtain rfl := Option.some.inj h
      dsimp only
      have habs : e - (e + |e| * 0.003) = -(|e| * 0.003) := by ring
      have hnn : (0:ℚ) ≤ |e| * 0.003 := by positivity
      rw [habs, abs_neg, abs_of_nonneg hnn]
      exact ⟨rfl, rfl, rfl, rfl, rfl, rfl, rfl⟩
    · simp only [if_neg hr, reduceCtorEq, if_false] at h ⊢
      obtain rfl := Option.some.inj h
      dsimp only
      exact ⟨rfl, rfl, rfl, rfl, rfl, rfl, rfl⟩

theorem rng_pos (last : Candle) :
    (0:ℚ) < max (last.high - last.low) (1 / 1000000000) :=
  lt_of_lt_of_le (by norm_num) (le_max_right _ _)

theorem noise_floor_nonneg (cs : List Candle) (f : FeatureRecord) :
    0 ≤ (compute_noise_floor cs f).1 := by
  unfold compute_noise_floor
  dsimp only
  split_ifs <;> dsimp only <;>
    first
      | exact le_refl 0
      | exact le_of_lt (lt_of_not_le (by assumption))

theorem build_levels_pre_long_le (cs : List Candle) (f : FeatureRecord) (e s : ℚ)
    (hp : build_levels_pre Dir.long cs f = some (e, s)) (har : 0 ≤ f.avg_range)
    (hwf : ∀ c, cs.getLast? = some c → c.low ≤ c.close) : s ≤ e := by
  unfold build_levels_pre at hp
  cases hl : cs.getLast? with
  | none => rw [hl] at hp; cases hp
  | some last =>
    rw [hl] at hp
    dsimp only at hp
    simp only [eq_self_iff_true, if_true] at hp
    have hrng := rng_pos last
    have hlc := hwf last hl
    have h4 : (0:ℚ) ≤ behaviour_settings.max_risk_factor := by norm_num [behaviour_settings]
    have hmin : last.low ≤ (last.low + 0.25 * ((last.high - last.low) ⊔ 1 / 1000000000)) ⊓ last.close :=
      le_min (by linarith) hlc
    split_ifs at hp <;>
      (have hij := Option.some.inj hp
       have he := congrArg Prod.fst hij
       have hs := congrArg Prod.snd hij
       dsimp only at he hs
       rw [← he, ← hs]) <;>
      first
        | exact sub_le_self _ (noise_floor_nonneg cs f)
        | exact sub_le_self _ (mul_nonneg h4 har)
        | exact sub_le_self _
            (mul_nonneg h4 (le_of_lt (lt_of_not_le (by assumption))))
        | linarith

theorem build_levels_pre_short_ge (cs : List Candle) (f : FeatureRecord) (e s : ℚ)
    (hp : build_levels_pre Dir.short cs f = some (e, s)) (har : 0 ≤ f.avg_range)
    (hwf : ∀ c, cs.getLast? = some c → c.close ≤ c.high) : e ≤ s := by
  unfold build_levels_pre at hp
  cases hl : cs.getLast? with
  | none => rw [hl] at hp; cases hp
  | some last =>
    rw [hl] at hp
    dsimp only at hp
    simp only [reduceCtorEq, if_false] at hp
    have hrng := rng_pos last
    have hch := hwf last hl
    have h4 : (0:ℚ) ≤ behaviour_settings.max_risk_factor := by norm_num [behaviour_settings]
    have hmax : (last.high - 0.25 * ((last.high - last.low) ⊔ 1 / 1000000000)) ⊔ last.close ≤ last.high :=
      max_le (by linarith) hch
    split_ifs at hp <;>
      (have hij := Option.some.inj hp
       have he := congrArg Prod.fst hij
       have hs := congrArg Prod.snd hij
       dsimp only at he hs
       rw [← he, ← hs]) <;>
      first
        | linarith
        | exact le_add_of_nonneg_right (noise_floor_nonneg cs f)
        | exact le_add_of_nonneg_right
            (mul_nonneg h4 (le_of_lt (lt_of_not_le (by assumption))))
        | exact le_add_of_nonneg_right (mul_nonneg h4 har)



theorem analyze_some_inv (st : BotState) (cs : List Candle) (rec : SignalRecord)
    (h : analyze_symbol_behaviour st cs = some rec) :
    ∃ f, compute_features cs = some f ∧
      (aggregate_opportunity f (eval_all_categories f)).direction = some rec.side ∧
      behaviour_settings.min_score_to_send ≤
        (aggregate_opportunity f (eval_all_categories f)).score ∧
      fails_anti_countertrend_filter rec.side f = false ∧
      rec.score = (aggregate_opportunity f (eval_all_categories f)).score ∧
      rec.tier = tier_from_score rec.score ∧
      should_send_tier st rec.tier = true ∧
      ∃ lv, build_levels rec.side cs f
          (aggregate_opportunity f (eval_all_categories f)) = some lv ∧
        rec.entry = lv.entry ∧ rec.sl = lv.sl ∧ rec.tp1 = lv.tp1 ∧
        rec.tp2 = lv.tp2 ∧ rec.tp3 = lv.tp3 ∧ 0 < |lv.entry - lv.sl| := by
  unfold analyze_symbol_behaviour at h
  by_cases hlen : cs.length < behaviour_settings.min_candles
  · rw [if_pos hlen] at h; cases h
  rw [if_neg hlen] at h
  cases hf : compute_features cs with
  | none => rw [hf] at h; cases h
  | some f =>
    rw [hf] at h
    dsimp only at h
    cases hd : (aggregate_opportunity f (eval_all_categories f)).direction with
    | none => rw [hd] at h; cases h
    | some side =>
      rw [hd] at h
      dsimp only at h
      by_cases hsc : (aggregate_opportunity f (eval_all_categories f)).score <
          behaviour_settings.min_score_to_send
      · rw [if_pos hsc] at h; cases h
      rw [if_neg hsc] at h
      by_cases hfil : fails_anti_countertrend_filter side f = true
      · rw [if_pos hfil] at h; cases h
      rw [if_neg hfil] at h
      cases hb : build_levels side cs f (aggregate_opportunity f (eval_all_categories f)) with
      | none => rw [hb] at h; cases h
      | some lv =>
        rw [hb] at h
        dsimp only at h
        by_cases hrisk : |lv.entry - lv.sl| ≤ 0
        · rw [if_pos hrisk] at h; cases h
        rw [if_neg hrisk] at h
        by_cases hrr : |lv.tp2 - lv.entry| / |lv.entry - lv.sl| <
            behaviour_settings.min_rr_tp2
        · rw [if_pos hrr] at h; cases h
        rw [if_neg hrr] at h
        by_cases hsend : should_send_tier st
            (tier_from_score (aggregate_opportunity f (eval_all_categories f)).score) = true
        · rw [if_neg (by simp [hsend])] at h
          obtain rfl := (Option.some.inj h).symm
          exact ⟨f, rfl, hd, le_of_not_lt hsc, Bool.eq_false_iff.mpr hfil, rfl, rfl,
            hsend, lv, hb, rfl, rfl, rfl, rfl, rfl, lt_of_not_le hrisk⟩
        · rw [if_pos (by simpa using hsend)] at h; cases h




/-- Claim C1. -/
theorem C1_direction_choice (cats : Cats) :
    ((bias_long_sum cats < 1 ∧ bias_short_sum cats < 1) →
      (choose_direction cats).direction = none) ∧
    (¬(bias_long_sum cats < 1 ∧ bias_short_sum cats < 1) →
      (((choose_direction cats).direction = some Dir.long ↔
          bias_long_sum cats > 1.3 * bias_short_sum cats) ∧
        ((choose_direction cats).direction = some Dir.short ↔
          bias_short_sum cats > 1.3 * bias_long_sum cats) ∧
        ((¬bias_long_sum cats > 1.3 * bias_short_sum cats ∧
            ¬bias_short_sum cats > 1.3 * bias_long_sum cats) →
          (choose_direction cats).direction = none))) := by
  constructor
  · intro h1
    simp only [choose_direction]
    rw [if_pos h1]
  · intro h1
    have hone : 1 ≤ bias_long_sum cats ∨ 1 ≤ bias_short_sum cats := by
      rcases not_and_or.mp h1 with h | h
      · exact Or.inl (le_of_not_lt h)
      · exact Or.inr (le_of_not_lt h)
    simp only [choose_direction]
    rw [if_neg h1]
    by_cases h2 : bias_long_sum cats > bias_short_sum cats * 1.3
    · rw [if_pos h2]
      refine ⟨⟨fun _ => by linarith, fun _ => rfl⟩,
        ⟨fun hc => Dir.noConfusion (Option.some.inj hc), fun hgt => ?_⟩,
        fun hc => (hc.1 (by linarith)).elim⟩
      rcases hone with h | h <;> (exfalso; linarith)
    · rw [if_neg h2]
      by_cases h3 : bias_short_sum cats > bias_long_sum cats * 1.3
      · rw [if_pos h3]
        refine ⟨⟨fun hc => Dir.noConfusion (Option.some.inj hc),
          fun hgt => (h2 (by linarith)).elim⟩,
          ⟨fun _ => by linarith, fun _ => rfl⟩,
          fun hc => (hc.2 (by linarith)).elim⟩
      · rw [if_neg h3]
        exact ⟨⟨fun hc => Option.noConfusion hc, fun hgt => (h2 (by linarith)).elim⟩,
          ⟨fun hc => Option.noConfusion hc, fun hgt => (h3 (by linarith)).elim⟩,
          fun _ => rfl⟩

theorem compute_chop_score_bounds (segment : List Candle) (avg_body : ℚ) :
    0 ≤ compute_chop_score segment avg_body ∧ compute_chop_score segment avg_body ≤ 100 := by
  unfold compute_chop_score
  dsimp only
  split_ifs
  · exact ⟨le_refl 0, by norm_num⟩
  · exact ⟨clamp_nonneg _ _, clamp_le _ _ (by norm_num)⟩



theorem bump_bias_long_sum (cats : Cats) (k : CatKey) (d : ℚ)
    (hk : (get_cat cats k).bias = some Dir.long) :
    bias_long_sum (bump cats k d) = bias_long_sum cats + d := by
  cases k <;>
    (simp only [get_cat] at hk
     simp only [bump, bias_long_sum]
     rw [hk]
     simp only [eq_self_iff_true, if_true]
     ring)

theorem bump_bias_short_sum (cats : Cats) (k : CatKey) (d : ℚ)
    (hk : (get_cat cats k).bias = some Dir.short) :
    bias_short_sum (bump cats k d) = bias_short_sum cats + d := by
  cases k <;>
    (simp only [get_cat] at hk
     simp only [bump, bias_short_sum]
     rw [hk]
     simp only [eq_self_iff_true, if_true]
     ring)

theorem bump_bias_short_sum_fixed (cats : Cats) (k : CatKey) (d : ℚ)
    (hk : (get_cat cats k).bias = some Dir.long) :
    bias_short_sum (bump cats k d) = bias_short_sum cats := by
  cases k <;>
    (simp only [get_cat] at hk
     simp only [bump, bias_short_sum]
     rw [hk]
     simp)

theorem bump_bias_long_sum_fixed (cats : Cats) (k : CatKey) (d : ℚ)
    (hk : (get_cat cats k).bias = some Dir.short) :
    bias_long_sum (bump cats k d) = bias_long_sum cats := by
  cases k <;>
    (simp only [get_cat] at hk
     simp only [bump, bias_long_sum]
     rw [hk]
     simp)

theorem bump_mc_score (cats : Cats) (k : CatKey) (d : ℚ) :
    (bump cats k d).mc.score = cats.mc.score ∨
      (bump cats k d).mc.score = cats.mc.score + d := by
  cases k <;> simp [bump]



theorem pre_damp_long_eq (cats : Cats)
    (h : (choose_direction cats).direction = some Dir.long) :
    pre_damp_score cats = bias_long_sum cats + 0.5 * cats.mc.score := by
  unfold pre_damp_score
  rw [h]

theorem pre_damp_short_eq (cats : Cats)
    (h : (choose_direction cats).direction = some Dir.short) :
    pre_damp_score cats = bias_short_sum cats + 0.5 * cats.mc.score := by
  unfold pre_damp_score
  rw [h]

theorem choose_direction_long_of (cats : Cats)
    (h1 : ¬(bias_long_sum cats < 1 ∧ bias_short_sum cats < 1))
    (h2 : bias_long_sum cats > bias_short_sum cats * 1.3) :
    (choose_direction cats).direction = some Dir.long := by
  simp only [choose_direction]
  rw [if_neg h1, if_pos h2]

theorem choose_direction_short_of (cats : Cats)
    (h1 : ¬(bias_long_sum cats < 1 ∧ bias_short_sum cats < 1))
    (h2 : ¬bias_long_sum cats > bias_short_sum cats * 1.3)
    (h3 : bias_short_sum cats > bias_long_sum cats * 1.3) :
    (choose_direction cats).direction = some Dir.short := by
  simp only [choose_direction]
  rw [if_neg h1, if_neg h2, if_pos h3]

/-- Claim C7. -/
theorem C7_winning_score_monotone (cats : Cats) (k : CatKey) (d : ℚ) (hd : 0 ≤ d) :
    ((get_cat cats k).bias = some Dir.long →
      (choose_direction cats).direction = some Dir.long →
      pre_damp_score cats ≤ pre_damp_score (bump cats k d)) ∧
    ((get_cat cats k).bias = some Dir.short →
      (choose_direction cats).direction = some Dir.short →
      pre_damp_score cats ≤ pre_damp_score (bump cats k d)) := by
  constructor
  · intro hk hdir
    obtain ⟨h1, h2⟩ := choose_direction_long_inv cats hdir
    have hbl := bump_bias_long_sum cats k d hk
    have hbs := bump_bias_short_sum_fixed cats k d hk
    have hdir2 : (choose_direction (bump cats k d)).direction = some Dir.long := by
      apply choose_direction_long_of
      · rw [hbl, hbs]
        rcases not_and_or.mp h1 with h | h
        · exact not_and_or.mpr (Or.inl (by intro hc; exact h (by linarith)))
        · exact not_and_or.mpr (Or.inr h)
      · rw [hbl, hbs]
        linarith
    rw [pre_damp_long_eq cats hdir, pre_damp_long_eq (bump cats k d) hdir2, hbl]
    rcases bump_mc_score cats k d with hmc | hmc <;> rw [hmc] <;> linarith
  · intro hk hdir
    obtain ⟨h1, h3⟩ := choose_direction_short_inv cats hdir
    have hbs := bump_bias_short_sum cats k d hk
    have hbl := bump_bias_long_sum_fixed cats k d hk
    have h2 : ¬bias_long_sum cats > bias_short_sum cats * 1.3 := by
      intro hc
      have hpos : ¬(bias_long_sum cats < 1 ∧ bias_short_sum cats < 1) := h1
      rcases not_and_or.mp h1 with h | h
      · have hge := le_of_not_lt h
        nlinarith
      · have hge := le_of_not_lt h
        nlinarith
    have hdir2 : (choose_direction (bump cats k d)).direction = some Dir.short := by
      apply choose_direction_short_of
      · rw [hbl, hbs]
        rcases not_and_or.mp h1 with h | h
        · exact not_and_or.mpr (Or.inl h)
        · exact not_and_or.mpr (Or.inr (by intro hc; exact h (by linarith)))
      · rw [hbl, hbs]
        intro hc
        nlinarith
      · rw [hbl, hbs]
        linarith
    rw [pre_damp_short_eq cats hdir, pre_damp_short_eq (bump cats k d) hdir2, hbs]
    rcases bump_mc_score cats k d with hmc | hmc <;> rw [hmc] <;> linarith



/-- Claim C2. -/
theorem C2_score_invariants (segment : List Candle) (avg_body : ℚ) (f : FeatureRecord) :
    (0 ≤ compute_chop_score segment avg_body ∧ compute_chop_score segment avg_body ≤ 100) ∧
    (0 ≤ (eval_elr f).score ∧ (eval_elr f).score ≤ 25) ∧
    (0 ≤ (eval_far f).score ∧ (eval_far f).score ≤ 30) ∧
    (0 ≤ (eval_cec f).score ∧ (eval_cec f).score ≤ 20) ∧
    (0 ≤ (eval_mc f).score ∧ (eval_mc f).score ≤ 12) ∧
    (0 ≤ (eval_vsde f).score ∧ (eval_vsde f).score ≤ 12) ∧
    (0 ≤ (eval_awp f).score ∧ (eval_awp f).score ≤ 15) ∧
    (0 ≤ (eval_hbp f).score ∧ (eval_hbp f).score ≤ 10) ∧
    (0 ≤ (aggregate_opportunity f (eval_all_categories f)).score ∧
      (aggregate_opportunity f (eval_all_categories f)).score ≤ 150) ∧
    ((aggregate_opportunity f (eval_all_categories f)).direction = none →
      (aggregate_opportunity f (eval_all_categories f)).score = 0) :=
  ⟨compute_chop_score_bounds segment avg_body, eval_elr_score_bounds f,
    eval_far_score_bounds f, eval_cec_score_bounds f, eval_mc_score_bounds f,
    eval_vsde_score_bounds f, eval_awp_score_bounds f, eval_hbp_score_bounds f,
    ⟨aggregate_score_nonneg f _, aggregate_score_le_150 f _⟩,
    aggregate_score_zero_of_none f _⟩

/-- Claim C8. -/
theorem C8_tp_ordering (side : Dir) (cs : List Candle) (f : FeatureRecord) (opp : Opp)
    (ls : LevelSet) (h : build_levels side cs f opp = some ls) :
    (side = Dir.long → ls.tp1 ≤ ls.tp2 ∧ ls.tp2 ≤ ls.tp3) ∧
    (side = Dir.short → ls.tp3 ≤ ls.tp2 ∧ ls.tp2 ≤ ls.tp1) := by
  have hrr := dynamic_rr_facts opp.score
  constructor
  · rintro rfl
    obtain ⟨e, s, hp, he, hsl, hR, hpct, h1, h2, h3⟩ := build_levels_long_inv cs f opp ls h
    have hRnn : 0 ≤ |ls.entry - ls.sl| := abs_nonneg _
    rw [h1, h2, h3]
    constructor <;> nlinarith [hrr.1, hrr.2.1, hrr.2.2]
  · rintro rfl
    obtain ⟨e, s, hp, he, hsl, hR, hpct, h1, h2, h3⟩ := build_levels_short_inv cs f opp ls h
    have hRnn : 0 ≤ |ls.entry - ls.sl| := abs_nonneg _
    rw [h1, h2, h3]
    constructor <;> nlinarith [hrr.1, hrr.2.1, hrr.2.2]

/-- Claim C3. -/
theorem C3_sl_pct_exact (side : Dir) (cs : List Candle) (f : FeatureRecord) (opp : Opp)
    (ls : LevelSet) (h : build_levels side cs f opp = some ls) :
    ls.sl_pct = |ls.entry - ls.sl| / ls.entry * 100 ∧
    (∀ e s, build_levels_pre side cs f = some (e, s) → |e - s| = 0 → 0 ≤ ls.entry →
      |ls.entry - ls.sl| = 0.003 * ls.entry) := by
  cases side
  · obtain ⟨e, s, hp, he, hsl, hR, hpct, h1, h2, h3⟩ := build_levels_long_inv cs f opp ls h
    constructor
    · rw [hpct]
      by_cases hz : e = 0
      · rw [if_neg (by simp [hz])]
        rw [he, hz, div_zero, zero_mul]
      · rw [if_pos hz, he]
    · intro e2 s2 hp2 hzero hnn
      rw [hp] at hp2
      have hij := Option.some.inj hp2
      have he2 : e = e2 := congrArg Prod.fst hij
      have hs2 : s = s2 := congrArg Prod.snd hij
      rw [← he2, ← hs2] at hzero
      rw [he] at hnn
      rw [hR, if_pos (le_of_eq hzero), abs_of_nonneg hnn, he]
      ring
  · obtain ⟨e, s, hp, he, hsl, hR, hpct, h1, h2, h3⟩ := build_levels_short_inv cs f opp ls h
    constructor
    · rw [hpct]
      by_cases hz : e = 0
      · rw [if_neg (by simp [hz])]
        rw [he, hz, div_zero, zero_mul]
      · rw [if_pos hz, he]
    · intro e2 s2 hp2 hzero hnn
      rw [hp] at hp2
      have hij := Option.some.inj hp2
      have he2 : e = e2 := congrArg Prod.fst hij
      have hs2 : s = s2 := congrArg Prod.snd hij
      rw [← he2, ← hs2] at hzero
      rw [he] at hnn
      rw [hR, if_pos (le_of_eq hzero), abs_of_nonneg hnn, he]
      ring

theorem not_strong_bear_facts (f : FeatureRecord) (h : is_strong_bear_env f = false) :
    ¬(f.bear_count > f.bull_count * 1.2 ∧ f.net_flow < 0) := by
  unfold is_strong_bear_env at h
  rw [decide_eq_false_iff_not] at h
  exact fun hc => h (Or.inl hc)

theorem not_strong_bull_facts (f : FeatureRecord) (h : is_strong_bull_env f = false) :
    ¬(f.bull_count > f.bear_count * 1.2 ∧ f.net_flow > 0) := by
  unfold is_strong_bull_env at h
  rw [decide_eq_false_iff_not] at h
  exact fun hc => h (Or.inl hc)

theorem filter_long_false (f : FeatureRecord)
    (h : fails_anti_countertrend_filter Dir.long f = false)
    (hfd : f.has_flush_down = false) : is_strong_bear_env f = false := by
  unfold fails_anti_countertrend_filter at h
  rw [hfd] at h
  simpa using h

theorem filter_short_false (f : FeatureRecord)
    (h : fails_anti_countertrend_filter Dir.short f = false)
    (hfu : f.has_flush_up = false) : is_strong_bull_env f = false := by
  unfold fails_anti_countertrend_filter at h
  rw [hfu] at h
  simpa using h

theorem blocked_long_score (f : FeatureRecord) (hnf : 0 ≤ f.net_flow)
    (hfd : f.has_flush_down = false)
    (hd : (aggregate_opportunity f (eval_all_categories f)).direction = some Dir.long) :
    (aggregate_opportunity f (eval_all_categories f)).score < 70 := by
  have helr : (eval_elr f).bias ≠ some Dir.long := fun hc =>
    absurd (eval_elr_bias_long f hc) (not_lt.mpr hnf)
  have hfar : (eval_far f).bias ≠ some Dir.long := fun hc => by
    rw [eval_far_bias_long f hc] at hfd
    cases hfd
  have hb57 := bias_long_sum_le_57 f helr hfar
  have hmc := eval_mc_score_bounds f
  have hbln := bias_long_sum_nonneg f
  rw [aggregate_direction_eq] at hd
  have hmce : (eval_all_categories f).mc.score = (eval_mc f).score := rfl
  have hle := aggregate_score_le_base_long f (eval_all_categories f) hd hbln (hmce ▸ hmc.1)
  linarith [hmc.2, hmce]

theorem blocked_short_score (f : FeatureRecord) (hnf : f.net_flow ≤ 0)
    (hfu : f.has_flush_up = false)
    (hd : (aggregate_opportunity f (eval_all_categories f)).direction = some Dir.short) :
    (aggregate_opportunity f (eval_all_categories f)).score < 70 := by
  have helr : (eval_elr f).bias ≠ some Dir.short := fun hc =>
    absurd (eval_elr_bias_short f hc) (not_lt.mpr hnf)
  have hfar : (eval_far f).bias ≠ some Dir.short := fun hc => by
    rw [eval_far_bias_short f hc] at hfu
    cases hfu
  have hb57 := bias_short_sum_le_57 f helr hfar
  have hmc := eval_mc_score_bounds f
  have hbsn := bias_short_sum_nonneg f
  rw [aggregate_direction_eq] at hd
  have hmce : (eval_all_categories f).mc.score = (eval_mc f).score := rfl
  have hle := aggregate_score_le_base_short f (eval_all_categories f) hd hbsn (hmce ▸ hmc.1)
  linarith [hmc.2, hmce]

/-- Claim C4. -/
theorem C4_anti_countertrend (st : BotState) (cs : List Candle) (f : FeatureRecord)
    (hf : compute_features cs = some f) :
    ((f.bear_count > 1.2 * f.bull_count ∨ is_strong_bear_env f = true) →
      f.has_flush_down = false →
      ¬ emits_side Dir.long (analyze_symbol_behaviour st cs)) ∧
    ((f.bull_count > 1.2 * f.bear_count ∨ is_strong_bull_env f = true) →
      f.has_flush_up = false →
      ¬ emits_side Dir.short (analyze_symbol_behaviour st cs)) := by
  constructor
  · rintro harm hfd ⟨r, hr, hside⟩
    obtain ⟨f2, hf2, hd, hsc, hfil, _⟩ := analyze_some_inv st cs r hr
    rw [hf] at hf2
    obtain rfl : f = f2 := Option.some.inj hf2
    rw [hside] at hd hfil
    have hsbe : is_strong_bear_env f = false := filter_long_false f hfil hfd
    rcases harm with hcount | hstrong
    · have hnf : 0 ≤ f.net_flow := by
        by_contra hneg
        exact not_strong_bear_facts f hsbe ⟨by linarith, lt_of_not_le hneg⟩
      have := blocked_long_score f hnf hfd hd
      have e70 : behaviour_settings.min_score_to_send = (70 : ℚ) := rfl
      rw [e70] at hsc
      linarith
    · rw [hsbe] at hstrong
      cases hstrong
  · rintro harm hfu ⟨r, hr, hside⟩
    obtain ⟨f2, hf2, hd, hsc, hfil, _⟩ := analyze_some_inv st cs r hr
    rw [hf] at hf2
    obtain rfl : f = f2 := Option.some.inj hf2
    rw [hside] at hd hfil
    have hsbu : is_strong_bull_env f = false := filter_short_false f hfil hfu
    rcases harm with hcount | hstrong
    · have hnf : f.net_flow ≤ 0 := by
        by_contra hpos
        exact not_strong_bull_facts f hsbu ⟨by linarith, lt_of_not_le hpos⟩
      have := blocked_short_score f hnf hfu hd
      have e70 : behaviour_settings.min_score_to_send = (70 : ℚ) := rfl
      rw [e70] at hsc
      linarith
    · rw [hsbu] at hstrong
      cases hstrong



/-- Claim C9. -/
theorem C9_default_min_tier_gate (st : BotState) (cs : List Candle)
    (h0 : st.min_tier = none)
    (h1 : behaviour_settings.min_score_to_send ≤ cycle_score cs)
    (h2 : cycle_score cs < behaviour_settings.min_score_to_send + 10) :
    tier_from_score (cycle_score cs) = Tier.B ∧
      should_send_tier st Tier.B = false ∧
      analyze_symbol_behaviour st cs = none := by
  have e70 : behaviour_settings.min_score_to_send = (70 : ℚ) := rfl
  rw [e70] at h1 h2
  have htier := tier_from_score_eq_B _ h1 (by linarith)
  have hsend : should_send_tier st Tier.B = false := by
    unfold should_send_tier
    rw [h0]
    rfl
  refine ⟨htier, hsend, ?_⟩
  by_contra hne
  obtain ⟨rec, hrec⟩ := Option.ne_none_iff_exists'.mp hne
  obtain ⟨f, hf, hd, hsc, hfil, hscr, htr, hmust, _⟩ := analyze_some_inv st cs rec hrec
  have hcs : cycle_score cs = (aggregate_opportunity f (eval_all_categories f)).score := by
    unfold cycle_score
    rw [hf]
  have hrb : rec.tier = Tier.B := by
    rw [htr, hscr, ← hcs, htier]
  rw [hrb, hsend] at hmust
  cases hmust

/-- Claim C10. -/
theorem C10_stop_and_target_sides (st : BotState) (cs : List Candle) (rec : SignalRecord)
    (hwf : well_formed cs) (h : analyze_symbol_behaviour st cs = some rec) :
    (rec.side = Dir.long → rec.sl < rec.entry ∧ rec.entry < rec.tp1) ∧
    (rec.side = Dir.short → rec.tp1 < rec.entry ∧ rec.entry < rec.sl) := by
  obtain ⟨f, hf, hd, hsc, hfil, hscr, htr, hmust, lv, hb, he, hsl, h1, h2, h3, hrpos⟩ :=
    analyze_some_inv st cs rec h
  have hfm : f = mk_features cs := compute_features_some cs f hf
  have har : 0 ≤ f.avg_range := by
    rw [hfm]
    exact avg_range_nonneg cs hwf
  have hrr := dynamic_rr_facts
    (aggregate_opportunity f (eval_all_categories f)).score
  constructor
  · intro hside
    rw [hside] at hb
    obtain ⟨e, s, hp, hee, hslc, hR, hpct, ht1, ht2, ht3⟩ :=
      build_levels_long_inv cs f _ lv hb
    have hlastwf : ∀ c, cs.getLast? = some c → c.low ≤ c.close := by
      intro c hc
      have hm := List.mem_of_getLast?_eq_some hc
      have := hwf c hm
      have hmr := min_le_right c.open_ c.close
      linarith [this.1]
    have hse : s ≤ e := build_levels_pre_long_le cs f e s hp har hlastwf
    have hsle : lv.sl ≤ lv.entry := by
      rw [hee]
      by_cases hz : |e - s| ≤ 0
      · rw [if_pos hz] at hslc
        rw [hslc]
        have h3e : (0:ℚ) ≤ |e| * 0.003 := by positivity
        linarith
      · rw [if_neg hz] at hslc
        rw [hslc]
        exact hse
    have hne : lv.entry ≠ lv.sl := fun hc => by
      rw [hc] at hrpos
      simp at hrpos
    have hslt : lv.sl < lv.entry := lt_of_le_of_ne hsle fun hc => hne hc.symm
    have htp : lv.entry < lv.tp1 := by
      rw [ht1, ← hee]
      have hprod := mul_pos hrr.1 hrpos
      linarith
    constructor
    · rw [hsl, he]
      exact hslt
    · rw [he, h1]
      exact htp
  · intro hside
    rw [hside] at hb
    obtain ⟨e, s, hp, hee, hslc, hR, hpct, ht1, ht2, ht3⟩ :=
      build_levels_short_inv cs f _ lv hb
    have hlastwf : ∀ c, cs.getLast? = some c → c.close ≤ c.high := by
      intro c hc
      have hm := List.mem_of_getLast?_eq_some hc
      have := hwf c hm
      have hmr := le_max_right c.open_ c.close
      linarith [this.2]
    have hse : e ≤ s := build_levels_pre_short_ge cs f e s hp har hlastwf
    have hsle : lv.entry ≤ lv.sl := by
      rw [hee]
      by_cases hz : |e - s| ≤ 0
      · rw [if_pos hz] at hslc
        rw [hslc]
        have h3e : (0:ℚ) ≤ |e| * 0.003 := by positivity
        linarith
      · rw [if_neg hz] at hslc
        rw [hslc]
        exact hse
    have hne : lv.entry ≠ lv.sl := fun hc => by
      rw [hc] at hrpos
      simp at hrpos
    have hslt : lv.entry < lv.sl := lt_of_le_of_ne hsle hne
    have htp : lv.tp1 < lv.entry := by
      rw [ht1, ← hee]
      have hprod := mul_pos hrr.1 hrpos
      linarith
    constructor
    · rw [he, h1]
      exact htp
    · rw [hsl, he]
      exact hslt


/-- The long-pivot and short-pivot trigger conditions of `eval_hbp` can never
hold simultaneously: they demand opposite HTF wick biases, which is a single
field.  The conflict branch of `eval_hbp` (score 4, no bias) is therefore
unreachable. -/
theorem hbp_pivot_conditions_mutually_exclusive (f : FeatureRecord) :
    ¬(((f.htf_dom = HtfDom.bear ∨ f.htf_drift = Drift.down) ∧
        f.htf_wick_bias = WickBias.buy) ∧
      ((f.htf_dom = HtfDom.bull ∨ f.htf_drift = Drift.up) ∧
        f.htf_wick_bias = WickBias.sell)) := by
  rintro ⟨⟨_, hb⟩, _, hs⟩
  rw [hb] at hs
  cases hs

/- Batteries marks the `Rat` field operations `@[irreducible]`.  The kernel
ignores reducibility, but concrete evaluation inside `decide` proofs needs the
elaborator to unfold them as well, so their normal reducibility is restored
for the witness section below. -/
set_option allowUnsafeReducibility true
attribute [semireducible] Rat.add Rat.mul Rat.inv Rat.sub Rat.ofScientific

/-- Witness for C1 at the all-zero category results. -/
theorem C1_direction_choice_witness : (choose_direction catsZ).direction = none :=
  (C1_direction_choice catsZ).1 (by decide)

/-- Witness for C2: the all-neutral record yields no direction, hence score 0. -/
theorem C2_score_invariants_witness :
    (aggregate_opportunity fZ (eval_all_categories fZ)).score = 0 :=
  (C2_score_invariants [] 0 fZ).2.2.2.2.2.2.2.2.2 (by decide)

/-- Witness for C3: on the degenerate candle the initial risk is zero and the
stop falls back to 0.3 percent of the entry. -/
theorem C3_sl_pct_exact_witness :
    build_levels Dir.long cs3 fZ opp3 = some ls3 ∧
      ls3.sl_pct = |ls3.entry - ls3.sl| / ls3.entry * 100 ∧
      |ls3.entry - ls3.sl| = 0.003 * ls3.entry := by
  have hb : build_levels Dir.long cs3 fZ opp3 = some ls3 := by decide
  have h := C3_sl_pct_exact Dir.long cs3 fZ opp3 ls3 hb
  exact ⟨hb, h.1,
    h.2 (19999999997/20000000000) (19999999997/20000000000)
      (by decide) (by decide) (by decide)⟩

/-- Witness for C4: forty identical bear bars form a strong bear environment
with no downward flush, and no long signal is emitted. -/
theorem C4_anti_countertrend_witness :
    compute_features csB = some fB ∧
      ¬ emits_side Dir.long (analyze_symbol_behaviour stN csB) :=
  ⟨by decide, (C4_anti_countertrend stN csB fB (by decide)).1 (Or.inl (by decide)) (by decide)⟩

/-- Witness for C7 at a single long-biased category. -/
theorem C7_winning_score_monotone_witness :
    pre_damp_score catsW ≤ pre_damp_score (bump catsW CatKey.elr 1) :=
  (C7_winning_score_monotone catsW CatKey.elr 1 (by norm_num)).1 (by decide) (by decide)

/-- Witness for C8 on the degenerate zero-risk candle. -/
theorem C8_tp_ordering_witness : ls3.tp1 ≤ ls3.tp2 ∧ ls3.tp2 ≤ ls3.tp3 :=
  (C8_tp_ordering Dir.long cs3 fZ opp3 ls3 (by decide)).1 rfl

/-- Witness for C9: the 40-bar downtrend scores 73 (in [70, 80)), gets tier B,
and with no minimum tier configured the analyzer emits nothing. -/
theorem C9_default_min_tier_gate_witness :
    tier_from_score (cycle_score csA) = Tier.B ∧
      analyze_symbol_behaviour stN csA = none := by
  have h := C9_default_min_tier_gate stN csA rfl (by decide) (by decide)
  exact ⟨h.1, h.2.2⟩

/-- Witness for C10: the same downtrend emitted with minimum tier B gives a
long record with sl < entry < tp1. -/
theorem C10_stop_and_target_sides_witness :
    recA.sl < recA.entry ∧ recA.entry < recA.tp1 := by
  have h := C10_stop_and_target_sides stB csA recA (by decide) (by decide)
  exact h.1 rfl

end BehaviourBot
